import Mathlib

/-!
Verification of the authorization core of a multi-tenant Django backend:
role/permission resolution (`UserProfile.has_permission`, `get_permissions`),
tenant-scoped query helpers (`for_tenant`, `for_user`, `accessible_by`),
the middleware/decorator guard pipeline (tenant detection, tenant isolation,
role thresholds, permission/role decorators, object-level user management),
and the permission seeding command.

The relational state (Permission, RolePermission, UserPermission rows) is
embedded as explicit lists; Django queryset `.filter(...).exists()` calls
become `List.any`, `.filter` becomes `List.filter`, `get_or_create` becomes
an explicit membership test followed by an append.
-/

/-- Organization (tenant): primary key plus unique slug (`api/models.py`). -/
structure Organization where
  oid : Nat
  slug : String
  deriving DecidableEq, Repr

/-- Permission catalog row: unique name, category, description. -/
structure Permission where
  name : String
  category : String
  description : String
  deriving DecidableEq, Repr

/-- RolePermission row: maps a role name to a permission (by its unique name,
standing in for the foreign key). -/
structure RolePermission where
  role : String
  permName : String
  deriving DecidableEq, Repr

/-- UserProfile: role string and optional owning organization
(`organization` is a nullable foreign key). `pid` is the primary key. -/
structure UserProfile where
  pid : Nat
  role : String
  organization : Option Organization
  deriving DecidableEq, Repr

/-- UserPermission row: per-user permission override with a granted flag. -/
structure UserPermission where
  userProfileId : Nat
  permName : String
  granted : Bool
  deriving DecidableEq, Repr

/-- The database tables consulted by permission resolution. -/
structure DB where
  permissions : List Permission
  rolePermissions : List RolePermission
  userPermissions : List UserPermission
  deriving DecidableEq, Repr

/-- `UserProfile.is_superadmin` from `api/models.py`. -/
def UserProfile.is_superadmin (p : UserProfile) : Bool :=
  decide (p.role = "superadmin")

/-- `UserProfile.is_admin` from `api/models.py`. -/
def UserProfile.is_admin (p : UserProfile) : Bool :=
  decide (p.role = "admin")

/-- `UserProfile.is_admin_or_above` from `api/models.py`:
role in ['admin', 'superadmin', 'manager']. -/
def UserProfile.is_admin_or_above (p : UserProfile) : Bool :=
  decide (p.role = "admin" ∨ p.role = "superadmin" ∨ p.role = "manager")

/-- `UserProfile.has_permission` from `api/models.py`: superadmin short-circuit,
then a RolePermission existence query, then a granted UserPermission query. -/
def UserProfile.has_permission (db : DB) (p : UserProfile)
    (permission_name : String) : Bool :=
  if p.is_superadmin then true
  else if db.rolePermissions.any
      (fun rp => decide (rp.role = p.role ∧ rp.permName = permission_name)) then
    true
  else
    db.userPermissions.any
      (fun up => decide (up.userProfileId = p.pid ∧
        up.permName = permission_name ∧ up.granted = true))

/-- `UserProfile.get_permissions` from `api/models.py`: the full catalog for a
superadmin, otherwise the deduplicated union of role-bound permission names
(join through RolePermission) and granted user-override permission names
(join through UserPermission). -/
def UserProfile.get_permissions (db : DB) (p : UserProfile) : List String :=
  if p.is_superadmin then db.permissions.map Permission.name
  else
    let role_perms := (db.permissions.filter (fun perm =>
      db.rolePermissions.any
        (fun rp => decide (rp.role = p.role ∧ rp.permName = perm.name)))).map
      Permission.name
    let user_perms := (db.permissions.filter (fun perm =>
      db.userPermissions.any
        (fun up => decide (up.userProfileId = p.pid ∧
          up.permName = perm.name ∧ up.granted = true)))).map
      Permission.name
    (role_perms ++ user_perms).dedup

/-- C1: `has_permission` is true exactly for superadmins, role-bound
permissions, or granted user overrides; `get_permissions` is the full catalog
for a superadmin and otherwise has exactly the role-bound and granted-override
names as members (under referential integrity of the two join tables). -/
theorem has_permission_resolution (db : DB) (p : UserProfile) (n : String)
    (hrp : ∀ rp ∈ db.rolePermissions,
      ∃ perm ∈ db.permissions, perm.name = rp.permName)
    (hup : ∀ up ∈ db.userPermissions,
      ∃ perm ∈ db.permissions, perm.name = up.permName) :
    (p.has_permission db n = true ↔
      (p.role = "superadmin" ∨
        (∃ rp ∈ db.rolePermissions, rp.role = p.role ∧ rp.permName = n) ∨
        (∃ up ∈ db.userPermissions,
          up.userProfileId = p.pid ∧ up.permName = n ∧ up.granted = true))) ∧
    (p.role = "superadmin" →
      p.get_permissions db = db.permissions.map Permission.name) ∧
    (p.role ≠ "superadmin" →
      (n ∈ p.get_permissions db ↔
        (∃ rp ∈ db.rolePermissions, rp.role = p.role ∧ rp.permName = n) ∨
        (∃ up ∈ db.userPermissions,
          up.userProfileId = p.pid ∧ up.permName = n ∧ up.granted = true))) := by
  refine ⟨?_, ?_, ?_⟩
  · by_cases hsa : p.role = "superadmin"
    · simp [UserProfile.has_permission, UserProfile.is_superadmin, hsa]
    · simp only [UserProfile.has_permission, UserProfile.is_superadmin,
        decide_eq_true_eq, if_neg hsa]
      constructor
      · intro h
        by_cases hr : db.rolePermissions.any
            (fun rp => decide (rp.role = p.role ∧ rp.permName = n)) = true
        · rw [List.any_eq_true] at hr
          obtain ⟨rp, hmem, hrp'⟩ := hr
          simp only [decide_eq_true_eq] at hrp'
          exact Or.inr (Or.inl ⟨rp, hmem, hrp'⟩)
        · rw [if_neg hr, List.any_eq_true] at h
          obtain ⟨up, hmem, hup'⟩ := h
          simp only [decide_eq_true_eq] at hup'
          exact Or.inr (Or.inr ⟨up, hmem, hup'⟩)
      · intro h
        rcases h with h | h | h
        · exact absurd h hsa
        · obtain ⟨rp, hmem, h1, h2⟩ := h
          have : db.rolePermissions.any
              (fun rp => decide (rp.role = p.role ∧ rp.permName = n)) = true := by
            rw [List.any_eq_true]
            exact ⟨rp, hmem, by simp [h1, h2]⟩
          rw [if_pos this]
        · obtain ⟨up, hmem, h1, h2, h3⟩ := h
          split
          · rfl
          · rw [List.any_eq_true]
            exact ⟨up, hmem, by simp [h1, h2, h3]⟩
  · intro hsa
    simp [UserProfile.get_permissions, UserProfile.is_superadmin, hsa]
  · intro hsa
    simp only [UserProfile.get_permissions, UserProfile.is_superadmin,
      decide_eq_true_eq, if_neg hsa, List.mem_dedup, List.mem_append,
      List.mem_map, List.mem_filter, List.any_eq_true, decide_eq_true_eq]
    constructor
    · intro h
      rcases h with ⟨perm, ⟨_, rp, hmem, h1, h2⟩, hname⟩ |
        ⟨perm, ⟨_, up, hmem, h1, h2, h3⟩, hname⟩
      · exact Or.inl ⟨rp, hmem, h1, by rw [← hname, h2]⟩
      · exact Or.inr ⟨up, hmem, h1, by rw [← hname, h2], h3⟩
    · intro h
      rcases h with ⟨rp, hmem, h1, h2⟩ | ⟨up, hmem, h1, h2, h3⟩
      · obtain ⟨perm, hpmem, hpname⟩ := hrp rp hmem
        exact Or.inl ⟨perm, ⟨hpmem, rp, hmem, h1, by rw [hpname, h2]⟩,
          by rw [hpname, h2]⟩
      · obtain ⟨perm, hpmem, hpname⟩ := hup up hmem
        exact Or.inr ⟨perm, ⟨hpmem, up, hmem, h1, by rw [hpname, h2], h3⟩,
          by rw [hpname, h2]⟩

/-- C1 witness: a concrete manager profile with one role-bound permission. -/
theorem has_permission_resolution_witness :
    (∀ rp ∈ (DB.mk [⟨"view_dashboard", "data", "View main dashboard"⟩]
        [⟨"manager", "view_dashboard"⟩] []).rolePermissions,
      ∃ perm ∈ (DB.mk [⟨"view_dashboard", "data", "View main dashboard"⟩]
        [⟨"manager", "view_dashboard"⟩] []).permissions,
        perm.name = rp.permName) ∧
    (UserProfile.has_permission
      (DB.mk [⟨"view_dashboard", "data", "View main dashboard"⟩]
        [⟨"manager", "view_dashboard"⟩] [])
      ⟨1, "manager", none⟩ "view_dashboard" = true ↔
      ("manager" = "superadmin" ∨
        (∃ rp ∈ (DB.mk [⟨"view_dashboard", "data", "View main dashboard"⟩]
          [⟨"manager", "view_dashboard"⟩] []).rolePermissions,
          rp.role = "manager" ∧ rp.permName = "view_dashboard") ∨
        (∃ up ∈ (DB.mk [⟨"view_dashboard", "data", "View main dashboard"⟩]
          [⟨"manager", "view_dashboard"⟩] []).userPermissions,
          up.userProfileId = 1 ∧ up.permName = "view_dashboard" ∧
          up.granted = true))) :=
  ⟨by decide,
    (has_permission_resolution
      (DB.mk [⟨"view_dashboard", "data", "View main dashboard"⟩]
        [⟨"manager", "view_dashboard"⟩] [])
      ⟨1, "manager", none⟩ "view_dashboard" (by decide) (by decide)).1⟩

/-- An authenticated-or-not request user with an optional profile (a Django
`request.user`: `is_authenticated`, and `hasattr(user, 'profile')` modelled as
an `Option`). -/
structure AuthUser where
  is_authenticated : Bool
  profile : Option UserProfile
  deriving DecidableEq, Repr

/-- A tenant-owned record with an `organization` foreign key, as filtered by
`TenantQuerySet` (`api/managers/tenant_manager.py`). -/
structure TenantRecord where
  rid : Nat
  organization : Organization
  deriving DecidableEq, Repr

/-- `TenantQuerySet.for_tenant`: empty when the organization is null,
otherwise the records filtered by that organization. -/
def for_tenant (records : List TenantRecord)
    (organization : Option Organization) : List TenantRecord :=
  match organization with
  | none => []
  | some org => records.filter (fun r => decide (r.organization = org))

/-- `TenantQuerySet.for_user`: empty when unauthenticated; when the user has a
profile with an organization, delegate to `for_tenant`; otherwise empty. -/
def for_user (records : List TenantRecord) (user : AuthUser) :
    List TenantRecord :=
  if user.is_authenticated = false then []
  else
    match user.profile with
    | some prof =>
      match prof.organization with
      | some org => for_tenant records (some org)
      | none => []
    | none => []

/-- `TenantQuerySet.accessible_by`: empty when unauthenticated, all records
for a superadmin profile, otherwise `for_user`. -/
def accessible_by (records : List TenantRecord) (user : AuthUser) :
    List TenantRecord :=
  if user.is_authenticated = false then []
  else
    match user.profile with
    | some prof => if prof.is_superadmin then records else for_user records user
    | none => for_user records user

/-- C2: the tenant-scoped query helpers. `for_tenant` of a null organization
is empty; `for_user` is empty for unauthenticated, profile-less or
organization-less users and otherwise returns exactly the records of the
user's organization; `accessible_by` returns everything for a superadmin and
`for_user`'s result otherwise; and a non-superadmin never receives a record
of a foreign organization. -/
theorem tenant_scoping_contract (records : List TenantRecord) (u : AuthUser) :
    (for_tenant records none = []) ∧
    (u.is_authenticated = false → for_user records u = []) ∧
    (u.profile = none → for_user records u = []) ∧
    (∀ prof, u.profile = some prof → prof.organization = none →
      for_user records u = []) ∧
    (∀ prof org r, u.is_authenticated = true → u.profile = some prof →
      prof.organization = some org →
      (r ∈ for_user records u ↔ r ∈ records ∧ r.organization = org)) ∧
    (∀ prof, u.is_authenticated = true → u.profile = some prof →
      prof.role = "superadmin" → accessible_by records u = records) ∧
    (∀ prof, u.profile = some prof → prof.role ≠ "superadmin" →
      accessible_by records u = for_user records u) ∧
    (u.profile = none → accessible_by records u = for_user records u) ∧
    (∀ prof r, u.profile = some prof → prof.role ≠ "superadmin" →
      r ∈ for_user records u → prof.organization = some r.organization) := by
  refine ⟨rfl, ?_, ?_, ?_, ?_, ?_, ?_, ?_, ?_⟩
  · intro h; simp [for_user, h]
  · intro h; simp [for_user, h]
  · intro prof hprof horg
    simp only [for_user, hprof, horg]
    split <;> rfl
  · intro prof org r hauth hprof horg
    simp [for_user, for_tenant, hauth, hprof, horg, List.mem_filter,
      and_comm]
  · intro prof hauth hprof hsa
    simp [accessible_by, hauth, hprof, UserProfile.is_superadmin, hsa]
  · intro prof hprof hsa
    simp only [accessible_by, for_user, hprof, UserProfile.is_superadmin]
    split <;> simp [hsa]
  · intro h
    simp only [accessible_by, for_user, h]
    split <;> rfl
  · intro prof r hprof _ hmem
    by_cases hauth : u.is_authenticated = false
    · simp [for_user, hauth] at hmem
    · have hauth' : u.is_authenticated = true := by
        cases h : u.is_authenticated
        · exact absurd h hauth
        · rfl
      simp only [for_user, hauth', hprof, Bool.true_eq_false,
        if_false] at hmem
      rcases horg : prof.organization with _ | org
      · rw [horg] at hmem
        simp at hmem
      · rw [horg] at hmem
        simp only [for_tenant, List.mem_filter, decide_eq_true_eq] at hmem
        rw [hmem.2]

/-- C2 witness: with two organizations and three records, a non-superadmin
user of org 1 sees exactly the org-1 records, and cross-tenant membership
transfers the organization equality. -/
theorem tenant_scoping_contract_witness :
    ((⟨10, ⟨1, "org-a"⟩⟩ : TenantRecord) ∈
      for_user [⟨10, ⟨1, "org-a"⟩⟩, ⟨11, ⟨2, "org-b"⟩⟩, ⟨12, ⟨1, "org-a"⟩⟩]
        ⟨true, some ⟨5, "user", some ⟨1, "org-a"⟩⟩⟩ ↔
      (⟨10, ⟨1, "org-a"⟩⟩ : TenantRecord) ∈
        ([⟨10, ⟨1, "org-a"⟩⟩, ⟨11, ⟨2, "org-b"⟩⟩, ⟨12, ⟨1, "org-a"⟩⟩] :
          List TenantRecord) ∧
      (⟨10, ⟨1, "org-a"⟩⟩ : TenantRecord).organization = ⟨1, "org-a"⟩) :=
  (tenant_scoping_contract
    [⟨10, ⟨1, "org-a"⟩⟩, ⟨11, ⟨2, "org-b"⟩⟩, ⟨12, ⟨1, "org-a"⟩⟩]
    ⟨true, some ⟨5, "user", some ⟨1, "org-a"⟩⟩⟩).2.2.2.2.1
    ⟨5, "user", some ⟨1, "org-a"⟩⟩ ⟨1, "org-a"⟩ ⟨10, ⟨1, "org-a"⟩⟩
    rfl rfl rfl

/-- The outcome of a middleware `process_request`/decorator wrapper: either
the request proceeds to the handler, or a JSON response with the given HTTP
status is returned instead. -/
inductive GuardResult where
  | proceed : GuardResult
  | response : Nat → GuardResult
  deriving DecidableEq, Repr

/-- A request as seen by the guards: the user and the tenant attached by the
detection middleware (`request.tenant`). -/
structure HttpRequest where
  user : AuthUser
  tenant : Option Organization
  deriving DecidableEq, Repr

/-- `TenantIsolationMiddleware.process_request`
(`api/middleware/tenant_middleware.py`): skip for unauthenticated users and
for superadmin profiles; when a tenant is attached and the user has a
profile, return 403 unless the profile's organization equals the tenant.
When the user has no profile attribute, every check is skipped and the
request proceeds. -/
def tenantIsolation_process_request (req : HttpRequest) : GuardResult :=
  if req.user.is_authenticated = false then .proceed
  else
    match req.user.profile with
    | some prof =>
      if prof.is_superadmin then .proceed
      else
        match req.tenant with
        | some t => if prof.organization ≠ some t then .response 403 else .proceed
        | none => .proceed
    | none => .proceed

/-- `require_permission` decorator (`api/decorators/permissions.py`): 401 when
unauthenticated, 403 when the profile is missing, 403 when the profile lacks
the permission, otherwise the view runs. -/
def require_permission (db : DB) (permission_name : String)
    (req : HttpRequest) : GuardResult :=
  if req.user.is_authenticated = false then .response 401
  else
    match req.user.profile with
    | none => .response 403
    | some prof =>
      if prof.has_permission db permission_name = false then .response 403
      else .proceed

/-- `require_role` decorator (`api/decorators/permissions.py`): 401 when
unauthenticated, 403 when the profile is missing, 403 when the role is not in
the allowed list, otherwise the view runs. -/
def require_role (allowed_roles : List String) (req : HttpRequest) :
    GuardResult :=
  if req.user.is_authenticated = false then .response 401
  else
    match req.user.profile with
    | none => .response 403
    | some prof =>
      if (allowed_roles.contains prof.role) = false then .response 403
      else .proceed

/-- C3: the tenant-isolation guard. Unauthenticated requests bypass it;
superadmins bypass it unconditionally; an authenticated non-superadmin with
an attached tenant is rejected with 403 exactly when the profile organization
differs from the tenant, and proceeds when they are equal. -/
theorem tenant_isolation_behaviour (req : HttpRequest) (prof : UserProfile)
    (t : Organization) :
    (req.user.is_authenticated = false →
      tenantIsolation_process_request req = .proceed) ∧
    (req.user.is_authenticated = true → req.user.profile = some prof →
      prof.role = "superadmin" →
      tenantIsolation_process_request req = .proceed) ∧
    (req.user.is_authenticated = true → req.user.profile = some prof →
      prof.role ≠ "superadmin" → req.tenant = some t →
      ((tenantIsolation_process_request req = .response 403 ↔
        prof.organization ≠ some t) ∧
       (prof.organization = some t →
        tenantIsolation_process_request req = .proceed))) := by
  refine ⟨?_, ?_, ?_⟩
  · intro h
    simp [tenantIsolation_process_request, h]
  · intro hauth hprof hsa
    simp [tenantIsolation_process_request, hauth, hprof,
      UserProfile.is_superadmin, hsa]
  · intro hauth hprof hsa hten
    constructor
    · simp only [tenantIsolation_process_request, hauth, hprof, hten,
        UserProfile.is_superadmin, Bool.true_eq_false, if_false,
        decide_eq_true_eq, if_neg hsa]
      constructor
      · intro h
        by_contra horg
        simp [horg] at h
      · intro h
        simp [h]
    · intro horg
      simp [tenantIsolation_process_request, hauth, hprof, hten,
        UserProfile.is_superadmin, hsa, horg]

/-- C3 witness: a non-superadmin user of org 1 requesting org 2's tenant is
rejected with 403. -/
theorem tenant_isolation_behaviour_witness :
    ((HttpRequest.mk ⟨true, some ⟨3, "admin", some ⟨1, "org-a"⟩⟩⟩
        (some ⟨2, "org-b"⟩)).user.is_authenticated = true ∧
      (HttpRequest.mk ⟨true, some ⟨3, "admin", some ⟨1, "org-a"⟩⟩⟩
        (some ⟨2, "org-b"⟩)).tenant = some ⟨2, "org-b"⟩) ∧
    (tenantIsolation_process_request
      (HttpRequest.mk ⟨true, some ⟨3, "admin", some ⟨1, "org-a"⟩⟩⟩
        (some ⟨2, "org-b"⟩)) = .response 403 ↔
      (UserProfile.mk 3 "admin" (some ⟨1, "org-a"⟩)).organization ≠
        some ⟨2, "org-b"⟩) :=
  ⟨⟨rfl, rfl⟩,
    ((tenant_isolation_behaviour
      (HttpRequest.mk ⟨true, some ⟨3, "admin", some ⟨1, "org-a"⟩⟩⟩
        (some ⟨2, "org-b"⟩))
      ⟨3, "admin", some ⟨1, "org-a"⟩⟩ ⟨2, "org-b"⟩).2.2
      rfl rfl (by decide) rfl).1⟩

/-- C4 counterexample: an authenticated request with a missing profile and an
attached tenant is NOT rejected by the tenant-isolation guard — it proceeds,
so not every per-request authorization guard denies with 403 on a missing
profile. -/
theorem profile_missing_not_denied_by_isolation :
    tenantIsolation_process_request
      (HttpRequest.mk ⟨true, none⟩ (some ⟨1, "acme"⟩)) = .proceed ∧
    tenantIsolation_process_request
      (HttpRequest.mk ⟨true, none⟩ (some ⟨1, "acme"⟩)) ≠ .response 403 := by
  constructor
  · rfl
  · decide

/-- C4 amended: on an authenticated request with a missing profile, the
permission decorator and the role decorator deny with 403, but the
tenant-isolation guard performs no check and lets the request proceed. -/
theorem profile_missing_guard_outcomes (db : DB) (n : String)
    (roles : List String) (req : HttpRequest)
    (hauth : req.user.is_authenticated = true)
    (hprof : req.user.profile = none) :
    require_permission db n req = .response 403 ∧
    require_role roles req = .response 403 ∧
    tenantIsolation_process_request req = .proceed := by
  refine ⟨?_, ?_, ?_⟩
  · simp [require_permission, hauth, hprof]
  · simp [require_role, hauth, hprof]
  · simp only [tenantIsolation_process_request, hauth, hprof,
      Bool.true_eq_false, if_false]

/-- C4 witness: the amended behaviour at a concrete profile-less request. -/
theorem profile_missing_guard_outcomes_witness :
    ((HttpRequest.mk ⟨true, none⟩ (some ⟨1, "acme"⟩)).user.is_authenticated =
        true ∧
      (HttpRequest.mk ⟨true, none⟩ (some ⟨1, "acme"⟩)).user.profile = none) ∧
    (require_permission (DB.mk [] [] []) "view_users"
        (HttpRequest.mk ⟨true, none⟩ (some ⟨1, "acme"⟩)) = .response 403 ∧
      require_role ["admin"]
        (HttpRequest.mk ⟨true, none⟩ (some ⟨1, "acme"⟩)) = .response 403 ∧
      tenantIsolation_process_request
        (HttpRequest.mk ⟨true, none⟩ (some ⟨1, "acme"⟩)) = .proceed) :=
  ⟨⟨rfl, rfl⟩,
    profile_missing_guard_outcomes (DB.mk [] [] []) "view_users" ["admin"]
      (HttpRequest.mk ⟨true, none⟩ (some ⟨1, "acme"⟩)) rfl rfl⟩

/-- The target object of `CanManageUsers.has_object_permission`: the role is
read from `obj.profile.role` when the object has a profile attribute, else
from `obj.role` when present, else there is no target role. -/
structure ManagedObj where
  profileRole : Option String
  role : Option String
  deriving DecidableEq, Repr

/-- The target-role extraction inside `CanManageUsers.has_object_permission`
(`api/permissions/role_permissions.py`). -/
def target_role_of (obj : ManagedObj) : Option String :=
  match obj.profileRole with
  | some r => some r
  | none => obj.role

/-- `CanManageUsers.has_object_permission`: deny unauthenticated requesters;
a superadmin requester manages any target; an admin requester manages a
target exactly when the target role is 'user'; every other requester
(including one without a profile) is denied. -/
def canManageUsers_has_object_permission (user : AuthUser)
    (obj : ManagedObj) : Bool :=
  if user.is_authenticated = false then false
  else
    match user.profile with
    | some prof =>
      if prof.role = "superadmin" then true
      else if prof.role = "admin" then decide (target_role_of obj = some "user")
      else false
    | none => false

/-- C5: the object-level user-management rule. A superadmin requester is
allowed for any target; an admin requester is allowed exactly when the
target's role is 'user'; any other requester role is denied. -/
theorem can_manage_users_rule (u : AuthUser) (prof : UserProfile)
    (obj : ManagedObj) (hauth : u.is_authenticated = true)
    (hprof : u.profile = some prof) :
    (prof.role = "superadmin" →
      canManageUsers_has_object_permission u obj = true) ∧
    (prof.role = "admin" →
      (canManageUsers_has_object_permission u obj = true ↔
        target_role_of obj = some "user")) ∧
    (prof.role ≠ "superadmin" → prof.role ≠ "admin" →
      canManageUsers_has_object_permission u obj = false) := by
  refine ⟨?_, ?_, ?_⟩
  · intro hsa
    simp [canManageUsers_has_object_permission, hauth, hprof, hsa]
  · intro hadm
    simp [canManageUsers_has_object_permission, hauth, hprof, hadm]
  · intro hsa hadm
    simp [canManageUsers_has_object_permission, hauth, hprof, hsa, hadm]

/-- C5 witness: an admin requester against an admin-role target is denied
(the allow condition is exactly target role = 'user', which fails here). -/
theorem can_manage_users_rule_witness :
    ((AuthUser.mk true (some ⟨4, "admin", none⟩)).is_authenticated = true ∧
      (AuthUser.mk true (some ⟨4, "admin", none⟩)).profile =
        some ⟨4, "admin", none⟩) ∧
    (canManageUsers_has_object_permission
        (AuthUser.mk true (some ⟨4, "admin", none⟩))
        (ManagedObj.mk (some "admin") none) = true ↔
      target_role_of (ManagedObj.mk (some "admin") none) = some "user") :=
  ⟨⟨rfl, rfl⟩,
    (can_manage_users_rule (AuthUser.mk true (some ⟨4, "admin", none⟩))
      ⟨4, "admin", none⟩ (ManagedObj.mk (some "admin") none) rfl rfl).2.1 rfl⟩

/-- The `role_hierarchy` dict of `RoleAuthMiddleware.process_view`
(`api/middleware/role_auth_middleware.py`), with the dict's `.get(role, 0)`
default for unlisted roles. -/
def role_hierarchy (role : String) : Nat :=
  if role = "superadmin" then 3
  else if role = "admin" then 2
  else if role = "user" then 1
  else 0

/-- `role_hierarchy.get(user_role, 0)` where `request.user_role` may be
absent/None. -/
def user_level (user_role : Option String) : Nat :=
  match user_role with
  | some r => role_hierarchy r
  | none => 0

/-- The request facts consulted by `RoleAuthMiddleware.process_view`:
authentication and the `user_role` attached by `process_request`. -/
structure RoleAuthContext where
  is_authenticated : Bool
  user_role : Option String
  deriving DecidableEq, Repr

/-- `RoleAuthMiddleware.process_view`: no check when the view declares no
(truthy) required role; otherwise 401 for unauthenticated requests, then 403
exactly when the user's hierarchy weight is below the required weight. -/
def roleAuth_process_view (ctx : RoleAuthContext)
    (required_role : Option String) : GuardResult :=
  match required_role with
  | none => .proceed
  | some rr =>
    if rr = "" then .proceed
    else if ctx.is_authenticated = false then .response 401
    else if user_level ctx.user_role < role_hierarchy rr then .response 403
    else .proceed

/-- C7: the coarse role-threshold check. The hierarchy weights are
superadmin=3, admin=2, user=1, every other role 0; for a view declaring a
required role, an unauthenticated request gets 401, and an authenticated one
gets 403 exactly when its weight is below the required weight, proceeding
otherwise. -/
theorem role_threshold_check (ctx : RoleAuthContext) (rr : String)
    (hrr : rr ≠ "") :
    (role_hierarchy "superadmin" = 3 ∧ role_hierarchy "admin" = 2 ∧
      role_hierarchy "user" = 1) ∧
    (∀ r, r ≠ "superadmin" → r ≠ "admin" → r ≠ "user" →
      role_hierarchy r = 0) ∧
    (ctx.is_authenticated = false →
      roleAuth_process_view ctx (some rr) = .response 401) ∧
    (ctx.is_authenticated = true →
      ((roleAuth_process_view ctx (some rr) = .response 403 ↔
        user_level ctx.user_role < role_hierarchy rr) ∧
       (¬ user_level ctx.user_role < role_hierarchy rr →
        roleAuth_process_view ctx (some rr) = .proceed))) := by
  refine ⟨⟨rfl, rfl, rfl⟩, ?_, ?_, ?_⟩
  · intro r h1 h2 h3
    simp [role_hierarchy, h1, h2, h3]
  · intro h
    simp [roleAuth_process_view, hrr, h]
  · intro hauth
    constructor
    · simp only [roleAuth_process_view, if_neg hrr, hauth,
        Bool.true_eq_false, if_false]
      constructor
      · intro h
        by_contra hlt
        simp [hlt] at h
      · intro h
        simp [h]
    · intro h
      simp [roleAuth_process_view, hrr, hauth, h]

/-- C7 witness: a 'manager' role has weight 0, so it is denied with 403
against a required role of 'user' (weight 1). -/
theorem role_threshold_check_witness :
    ("user" ≠ "" ∧ (RoleAuthContext.mk true (some "manager")).is_authenticated
        = true) ∧
    (roleAuth_process_view (RoleAuthContext.mk true (some "manager"))
        (some "user") = .response 403 ↔
      user_level (some "manager") < role_hierarchy "user") :=
  ⟨⟨by decide, rfl⟩,
    ((role_threshold_check (RoleAuthContext.mk true (some "manager")) "user"
      (by decide)).2.2.2 rfl).1⟩

/-- C8: a role-derived grant cannot be revoked by any state of the
UserPermission table: whenever a RolePermission row binds the profile's role
to the permission, `has_permission` is true for every UserPermission table —
in particular in the presence of a `granted=false` override row. -/
theorem role_grant_unaffected_by_overrides (perms : List Permission)
    (rps : List RolePermission) (p : UserProfile) (n : String)
    (h : ∃ rp ∈ rps, rp.role = p.role ∧ rp.permName = n) :
    ∀ ups : List UserPermission,
      UserProfile.has_permission (DB.mk perms rps ups) p n = true := by
  intro ups
  obtain ⟨rp, hmem, h1, h2⟩ := h
  simp only [UserProfile.has_permission]
  split
  · rfl
  · have : rps.any
        (fun rp => decide (rp.role = p.role ∧ rp.permName = n)) = true := by
      rw [List.any_eq_true]
      exact ⟨rp, hmem, by simp [h1, h2]⟩
    simp only [this, if_true]

/-- C8 witness: a user-role profile whose role is bound to 'view_dashboard'
keeps the permission even though a granted=false override row for the same
profile and permission is present. -/
theorem role_grant_unaffected_by_overrides_witness :
    (∃ rp ∈ [RolePermission.mk "user" "view_dashboard"],
      rp.role = (UserProfile.mk 9 "user" none).role ∧
      rp.permName = "view_dashboard") ∧
    UserProfile.has_permission
      (DB.mk [⟨"view_dashboard", "data", "View main dashboard"⟩]
        [RolePermission.mk "user" "view_dashboard"]
        [UserPermission.mk 9 "view_dashboard" false])
      (UserProfile.mk 9 "user" none) "view_dashboard" = true :=
  ⟨by decide,
    role_grant_unaffected_by_overrides
      [⟨"view_dashboard", "data", "View main dashboard"⟩]
      [RolePermission.mk "user" "view_dashboard"]
      (UserProfile.mk 9 "user" none) "view_dashboard" (by decide)
      [UserPermission.mk 9 "view_dashboard" false]⟩

/-- `IsAdminOrAbove.has_permission` from `api/permissions/role_permissions.py`:
role in ['admin', 'superadmin'], with the try/except around a missing profile
yielding False. -/
def rolePermissionsIsAdminOrAbove (user : AuthUser) : Bool :=
  if user.is_authenticated = false then false
  else
    match user.profile with
    | some prof => decide (prof.role = "admin" ∨ prof.role = "superadmin")
    | none => false

/-- `IsAdminOrAbove.has_permission` from `api/decorators/permissions.py`:
delegates to `UserProfile.is_admin_or_above`, i.e. role in
['admin', 'superadmin', 'manager']. -/
def decoratorsIsAdminOrAbove (user : AuthUser) : Bool :=
  if user.is_authenticated = false then false
  else
    match user.profile with
    | some prof => prof.is_admin_or_above
    | none => false

/-- C10 counterexample: an authenticated 'manager' profile is denied by the
role_permissions-module `IsAdminOrAbove` but allowed by the decorators-module
`IsAdminOrAbove`, so the two same-named gates do not decide the same
predicate. -/
theorem admin_or_above_gates_disagree :
    rolePermissionsIsAdminOrAbove
      (AuthUser.mk true (some ⟨7, "manager", none⟩)) = false ∧
    decoratorsIsAdminOrAbove
      (AuthUser.mk true (some ⟨7, "manager", none⟩)) = true ∧
    rolePermissionsIsAdminOrAbove
        (AuthUser.mk true (some ⟨7, "manager", none⟩)) ≠
      decoratorsIsAdminOrAbove
        (AuthUser.mk true (some ⟨7, "manager", none⟩)) := by
  refine ⟨rfl, rfl, ?_⟩
  decide

/-- C10 amended: the two `IsAdminOrAbove` gates agree on every principal with
a profile whose role is not 'manager'; on an authenticated 'manager' profile
they disagree — the role_permissions-module class returns false while the
decorators-module class returns true. -/
theorem admin_or_above_gates_agreement (u : AuthUser) (prof : UserProfile)
    (hprof : u.profile = some prof) :
    (prof.role ≠ "manager" →
      rolePermissionsIsAdminOrAbove u = decoratorsIsAdminOrAbove u) ∧
    (prof.role = "manager" → u.is_authenticated = true →
      rolePermissionsIsAdminOrAbove u = false ∧
      decoratorsIsAdminOrAbove u = true) := by
  constructor
  · intro hm
    simp only [rolePermissionsIsAdminOrAbove, decoratorsIsAdminOrAbove,
      hprof, UserProfile.is_admin_or_above]
    split
    · rfl
    · by_cases hadm : prof.role = "admin"
      · simp [hadm]
      · by_cases hsa : prof.role = "superadmin"
        · simp [hsa]
        · simp [hadm, hsa, hm]
  · intro hm hauth
    simp [rolePermissionsIsAdminOrAbove, decoratorsIsAdminOrAbove, hprof,
      hauth, UserProfile.is_admin_or_above, hm]

/-- C10 amended witness: the gates agree on an authenticated 'analyst'
profile. -/
theorem admin_or_above_gates_agreement_witness :
    ((AuthUser.mk true (some ⟨8, "analyst", none⟩)).profile =
        some ⟨8, "analyst", none⟩ ∧
      (UserProfile.mk 8 "analyst" none).role ≠ "manager") ∧
    rolePermissionsIsAdminOrAbove (AuthUser.mk true (some ⟨8, "analyst", none⟩))
      = decoratorsIsAdminOrAbove (AuthUser.mk true (some ⟨8, "analyst", none⟩)) :=
  ⟨⟨rfl, by decide⟩,
    (admin_or_above_gates_agreement (AuthUser.mk true (some ⟨8, "analyst", none⟩))
      ⟨8, "analyst", none⟩ rfl).1 (by decide)⟩

/-- Python `str.split(sep)` on a character list: splits on every occurrence
of the separator, keeping empty segments (so a leading or trailing separator
yields an empty first or last segment). -/
def splitChars (sep : Char) : List Char → List (List Char)
  | [] => [[]]
  | c :: rest =>
    let r := splitChars sep rest
    if c = sep then [] :: r
    else
      match r with
      | [] => [[c]]
      | seg :: segs => (c :: seg) :: segs

/-- `request.path.split('/')` from `TenantDetectionMiddleware`: the path's
'/'-separated segments. -/
def pathSegments (path : String) : List String :=
  (splitChars '/' path.data).map (fun cs => String.mk cs)

/-- Python `str.startswith(pre)`. -/
def pathStartsWith (path pre : String) : Bool :=
  List.isPrefixOf pre.data path.data

/-- The `skip_paths` allowlist of `TenantDetectionMiddleware.process_request`. -/
def skip_paths : List String :=
  ["/admin/", "/api/auth/", "/api/health/", "/api/docs/", "/api/schema/",
   "/static/", "/media/"]

/-- Python `path_parts.index('org')` guarded by `'org' in path_parts`: the
first index of the literal segment "org", if any. -/
def indexOfOrg : List String → Option Nat
  | [] => none
  | s :: rest => if s = "org" then some 0 else (indexOfOrg rest).map (· + 1)

/-- The outcome of `TenantDetectionMiddleware.process_request`: proceed with
`request.tenant` set to the given optional organization, or a 404
organization-not-found response naming the slug. -/
inductive DetectionResult where
  | proceed : Option Organization → DetectionResult
  | notFound : String → DetectionResult
  deriving DecidableEq, Repr

/-- `TenantDetectionMiddleware.process_request`
(`api/middleware/tenant_middleware.py`): skip detection for allowlisted
prefixes; look for the 'org' marker segment; when it is followed by a
non-empty slug, look the organization up by slug, attaching it on success and
returning the 404 response on failure; in every other case proceed with no
tenant. -/
def tenantDetection_process_request (orgs : List Organization)
    (path : String) : DetectionResult :=
  if skip_paths.any (fun p => pathStartsWith path p) then .proceed none
  else
    match indexOfOrg (pathSegments path) with
    | none => .proceed none
    | some i =>
      match (pathSegments path)[i+1]? with
      | none => .proceed none
      | some org_slug =>
        if org_slug = "" then .proceed none
        else
          match orgs.find? (fun o => decide (o.slug = org_slug)) with
          | some organization => .proceed (some organization)
          | none => .notFound org_slug

/-- The "org" marker is absent from a segment list exactly when
`indexOfOrg` finds no index. -/
theorem indexOfOrg_eq_none_iff (l : List String) :
    indexOfOrg l = none ↔ "org" ∉ l := by
  induction l with
  | nil => simp [indexOfOrg]
  | cons s rest ih =>
    by_cases h : s = "org"
    · simp [indexOfOrg, h]
    · simp only [indexOfOrg, if_neg h, Option.map_eq_none', ih,
        List.mem_cons]
      constructor
      · intro hn hc
        rcases hc with hc | hc
        · exact h hc.symm
        · exact hn hc
      · intro hn
        exact fun hc => hn (Or.inr hc)

/-- `List.find?` returns the designated element when it is the unique
match. -/
theorem find?_eq_some_of_unique (orgs : List Organization) (slug : String)
    (o : Organization) (hmem : o ∈ orgs) (hslug : o.slug = slug)
    (huniq : ∀ o2 ∈ orgs, o2.slug = slug → o2 = o) :
    orgs.find? (fun x => decide (x.slug = slug)) = some o := by
  induction orgs with
  | nil => cases hmem
  | cons a rest ih =>
    by_cases ha : a.slug = slug
    · have hao : a = o := huniq a (List.mem_cons_self a rest) ha
      rw [List.find?_cons_of_pos _ (by simp [ha]), hao]
    · have hmem' : o ∈ rest := by
        rcases List.mem_cons.mp hmem with h | h
        · rw [h] at hslug; exact absurd hslug ha
        · exact h
      rw [List.find?_cons_of_neg _ (by simp [ha])]
      exact ih hmem' (fun o2 h2 hs2 => huniq o2 (List.mem_cons_of_mem _ h2) hs2)

/-- C6: tenant detection outcomes for a non-allowlisted path. With no "org"
marker segment the request proceeds with no tenant; with a marker followed by
a non-empty slug, either no organization carries the slug and the request is
answered immediately with the 404 not-found response, or the (unique, by the
slug uniqueness constraint) organization with that slug is attached and the
request proceeds. A marker not followed by a non-empty slug also proceeds
with no tenant. -/
theorem tenant_detection_outcomes (orgs : List Organization) (path : String)
    (hskip : skip_paths.any (fun p => pathStartsWith path p) = false) :
    ((indexOfOrg (pathSegments path) = none ↔ "org" ∉ pathSegments path)) ∧
    ("org" ∉ pathSegments path →
      tenantDetection_process_request orgs path = .proceed none) ∧
    (∀ i, indexOfOrg (pathSegments path) = some i →
      (pathSegments path)[i+1]? = none →
      tenantDetection_process_request orgs path = .proceed none) ∧
    (∀ i, indexOfOrg (pathSegments path) = some i →
      (pathSegments path)[i+1]? = some "" →
      tenantDetection_process_request orgs path = .proceed none) ∧
    (∀ i slug, indexOfOrg (pathSegments path) = some i →
      (pathSegments path)[i+1]? = some slug → slug ≠ "" →
      ((∀ o ∈ orgs, o.slug ≠ slug) →
        tenantDetection_process_request orgs path = .notFound slug) ∧
      (∀ o, o ∈ orgs → o.slug = slug →
        (∀ o2 ∈ orgs, o2.slug = slug → o2 = o) →
        tenantDetection_process_request orgs path = .proceed (some o))) := by
  refine ⟨indexOfOrg_eq_none_iff _, ?_, ?_, ?_, ?_⟩
  · intro h
    have hidx : indexOfOrg (pathSegments path) = none :=
      (indexOfOrg_eq_none_iff _).mpr h
    simp [tenantDetection_process_request, hskip, hidx]
  · intro i hidx hnext
    simp [tenantDetection_process_request, hskip, hidx, hnext]
  · intro i hidx hnext
    simp [tenantDetection_process_request, hskip, hidx, hnext]
  · intro i slug hidx hnext hne
    constructor
    · intro hnone
      have hfind : orgs.find? (fun o => decide (o.slug = slug)) = none := by
        rw [List.find?_eq_none]
        intro o ho
        simp [hnone o ho]
      simp [tenantDetection_process_request, hskip, hidx, hnext, hne, hfind]
    · intro o hmem hslug huniq
      have hfind := find?_eq_some_of_unique orgs slug o hmem hslug huniq
      simp [tenantDetection_process_request, hskip, hidx, hnext, hne, hfind]

/-- C6 witness: the path `/api/org/acme/users/` against a catalog containing
the organization with slug `acme` attaches that organization. -/
theorem tenant_detection_outcomes_witness :
    (skip_paths.any (fun p => pathStartsWith "/api/org/acme/users/" p) = false ∧
      indexOfOrg (pathSegments "/api/org/acme/users/") = some 2 ∧
      (pathSegments "/api/org/acme/users/")[3]? = some "acme") ∧
    tenantDetection_process_request [⟨1, "acme"⟩] "/api/org/acme/users/" =
      .proceed (some ⟨1, "acme"⟩) :=
  ⟨⟨by decide, by decide, by decide⟩,
    ((tenant_detection_outcomes [⟨1, "acme"⟩] "/api/org/acme/users/"
      (by decide)).2.2.2.2 2 "acme" (by decide) (by decide) (by decide)).2
      ⟨1, "acme"⟩ (by decide) (by decide) (by decide)⟩

/-- The tables touched by the `seed_permissions` management command. -/
structure SeedDB where
  permissions : List Permission
  rolePermissions : List RolePermission
  deriving DecidableEq, Repr

/-- `Permission.objects.filter(name=n).exists()`: the uniqueness key used by
`get_or_create(name=...)`. -/
def hasPermName (db : SeedDB) (n : String) : Bool :=
  db.permissions.any (fun p => decide (p.name = n))

/-- Existence of a RolePermission row for the (role, permission) pair, the
uniqueness key of `RolePermission.objects.get_or_create`. -/
def hasRolePair (db : SeedDB) (r pn : String) : Bool :=
  db.rolePermissions.any (fun rp => decide (rp.role = r ∧ rp.permName = pn))

/-- One iteration of the permission-seeding loop:
`Permission.objects.get_or_create(name=..., defaults={category, description})`,
returning the new state and the `created` flag. -/
def seedPermStep (db : SeedDB) (d : String × String × String) :
    SeedDB × Bool :=
  if hasPermName db d.1 then (db, false)
  else ({ db with permissions := db.permissions ++ [⟨d.1, d.2.1, d.2.2⟩] },
    true)

/-- The permission-seeding loop over `permissions_data`, counting created
rows (`created_count`). -/
def seedPermsGo : SeedDB → List (String × String × String) → SeedDB × Nat
  | db, [] => (db, 0)
  | db, d :: rest =>
    let s := seedPermStep db d
    let t := seedPermsGo s.1 rest
    (t.1, (if s.2 then 1 else 0) + t.2)

/-- One iteration of the mapping-seeding loop: skip when
`Permission.objects.get(name=...)` raises DoesNotExist, otherwise
`RolePermission.objects.get_or_create(role=..., permission=...)`. -/
def seedPairStep (db : SeedDB) (pr : String × String) : SeedDB × Bool :=
  if hasPermName db pr.2 then
    if hasRolePair db pr.1 pr.2 then (db, false)
    else ({ db with rolePermissions := db.rolePermissions ++ [⟨pr.1, pr.2⟩] },
      true)
  else (db, false)

/-- The mapping-seeding loop over the flattened role-permission pairs,
counting created rows (`mapping_count`). -/
def seedPairsGo : SeedDB → List (String × String) → SeedDB × Nat
  | db, [] => (db, 0)
  | db, pr :: rest =>
    let s := seedPairStep db pr
    let t := seedPairsGo s.1 rest
    (t.1, (if s.2 then 1 else 0) + t.2)

/-- The nested `for role ...: for perm_name ...:` iteration order, as a flat
pair list. -/
def pairsOf : List (String × List String) → List (String × String)
  | [] => []
  | (role, names) :: rest => names.map (fun n => (role, n)) ++ pairsOf rest

/-- `permissions_data` from `api/management/commands/seed_permissions.py`. -/
def permissions_data : List (String × String × String) :=
  [("view_users", "users", "View user list and profiles"),
   ("create_users", "users", "Create new users"),
   ("edit_users", "users", "Edit user information"),
   ("delete_users", "users", "Delete users"),
   ("manage_roles", "users", "Change user roles and permissions"),
   ("view_dashboard", "data", "View main dashboard"),
   ("view_analytics", "data", "View analytics and reports"),
   ("view_reports", "data", "View detailed reports"),
   ("export_data", "data", "Export data to CSV/PDF"),
   ("import_data", "data", "Import data from files"),
   ("create_tasks", "data", "Create new tasks"),
   ("manage_tasks", "data", "Manage all tasks"),
   ("view_basic_analytics", "analytics", "View basic analytics"),
   ("view_advanced_analytics", "analytics", "View advanced analytics"),
   ("generate_reports", "analytics", "Generate custom reports"),
   ("view_settings", "settings", "View application settings"),
   ("edit_settings", "settings", "Edit application settings"),
   ("manage_billing", "settings", "Manage billing and subscriptions"),
   ("manage_organizations", "system", "Manage organizations"),
   ("view_all_data", "system", "View all organization data"),
   ("manage_system_settings", "system", "Manage system-wide settings"),
   ("view_audit_logs", "system", "View audit logs")]

/-- `role_permissions_map` from the seed command (superadmin deliberately has
no database bindings — it is special-cased in code). -/
def role_permissions_map : List (String × List String) :=
  [("superadmin", []),
   ("admin",
    ["view_users", "create_users", "edit_users", "delete_users",
     "manage_roles", "view_dashboard", "view_analytics", "view_reports",
     "export_data", "import_data", "create_tasks", "manage_tasks",
     "view_basic_analytics", "view_advanced_analytics", "generate_reports",
     "view_settings", "edit_settings", "manage_billing", "view_audit_logs"]),
   ("manager",
    ["view_users", "create_users", "edit_users", "view_dashboard",
     "view_analytics", "view_reports", "export_data", "create_tasks",
     "manage_tasks", "view_basic_analytics", "view_advanced_analytics",
     "generate_reports", "view_settings"]),
   ("analyst",
    ["view_users", "view_dashboard", "view_analytics", "view_reports",
     "export_data", "create_tasks", "view_basic_analytics",
     "view_advanced_analytics", "generate_reports", "view_settings"]),
   ("user",
    ["view_dashboard", "create_tasks", "view_basic_analytics",
     "view_settings"]),
   ("viewer", ["view_dashboard", "view_analytics", "view_basic_analytics"]),
   ("volunteer", ["view_dashboard", "create_tasks"])]

/-- `Command.handle` of the seed command: seed the permission catalog, then
the role-permission mappings, reporting the two created-row counts. -/
def seed_permissions_handle (db : SeedDB) : SeedDB × Nat × Nat :=
  let a := seedPermsGo db permissions_data
  let b := seedPairsGo a.1 (pairsOf role_permissions_map)
  (b.1, a.2, b.2)

/-- Permission existence survives a permission-seeding step. -/
theorem seedPermStep_mono (db : SeedDB) (d : String × String × String)
    (n : String) (h : hasPermName db n = true) :
    hasPermName (seedPermStep db d).1 n = true := by
  by_cases hc : hasPermName db d.1 = true
  · simpa [seedPermStep, hc]
  · simp only [seedPermStep, hc, Bool.false_eq_true, if_false]
    simp only [hasPermName, List.any_append] at h ⊢
    simp [h]

/-- A permission-seeding step establishes its own permission. -/
theorem seedPermStep_self (db : SeedDB) (d : String × String × String) :
    hasPermName (seedPermStep db d).1 d.1 = true := by
  by_cases hc : hasPermName db d.1 = true
  · simp [seedPermStep, hc]
  · have hc' : hasPermName db d.1 = false := by
      cases h : hasPermName db d.1
      · rfl
      · exact absurd h hc
    simp only [seedPermStep, hc', Bool.false_eq_true, if_false]
    simp [hasPermName, List.any_append]

/-- A permission-seeding step on an existing permission is a no-op reporting
`created=false`. -/
theorem seedPermStep_noop (db : SeedDB) (d : String × String × String)
    (h : hasPermName db d.1 = true) : seedPermStep db d = (db, false) := by
  simp [seedPermStep, h]

/-- A permission-seeding step adds one row exactly when it reports
`created=true`. -/
theorem seedPermStep_len (db : SeedDB) (d : String × String × String) :
    (seedPermStep db d).1.permissions.length =
      db.permissions.length + (if (seedPermStep db d).2 then 1 else 0) := by
  by_cases hc : hasPermName db d.1 = true <;> simp [seedPermStep, hc]

/-- Permission-seeding steps do not touch the RolePermission table. -/
theorem seedPermStep_rolePerms (db : SeedDB) (d : String × String × String) :
    (seedPermStep db d).1.rolePermissions = db.rolePermissions := by
  by_cases hc : hasPermName db d.1 = true <;> simp [seedPermStep, hc]

/-- Permission existence survives the whole permission-seeding loop. -/
theorem seedPermsGo_mono (l : List (String × String × String)) :
    ∀ db n, hasPermName db n = true →
      hasPermName (seedPermsGo db l).1 n = true := by
  induction l with
  | nil => intro db n h; simpa [seedPermsGo] using h
  | cons d rest ih =>
    intro db n h
    simp only [seedPermsGo]
    exact ih _ n (seedPermStep_mono db d n h)

/-- After the permission-seeding loop every listed permission exists. -/
theorem seedPermsGo_complete (l : List (String × String × String)) :
    ∀ db d, d ∈ l → hasPermName (seedPermsGo db l).1 d.1 = true := by
  induction l with
  | nil => intro db d h; cases h
  | cons e rest ih =>
    intro db d h
    simp only [seedPermsGo]
    rcases List.mem_cons.mp h with h | h
    · rw [h]
      exact seedPermsGo_mono rest _ _ (seedPermStep_self db e)
    · exact ih _ d h

/-- The permission-seeding loop is a no-op reporting zero created rows when
every listed permission already exists. -/
theorem seedPermsGo_noop (l : List (String × String × String)) :
    ∀ db, (∀ d ∈ l, hasPermName db d.1 = true) →
      seedPermsGo db l = (db, 0) := by
  induction l with
  | nil => intro db _; rfl
  | cons e rest ih =>
    intro db h
    have he := seedPermStep_noop db e (h e (List.mem_cons_self e rest))
    simp only [seedPermsGo, he]
    rw [ih db (fun d hd => h d (List.mem_cons_of_mem e hd))]
    rfl

/-- The permission count grows by exactly the reported created count. -/
theorem seedPermsGo_len (l : List (String × String × String)) :
    ∀ db, (seedPermsGo db l).1.permissions.length =
      db.permissions.length + (seedPermsGo db l).2 := by
  induction l with
  | nil => intro db; simp [seedPermsGo]
  | cons e rest ih =>
    intro db
    simp only [seedPermsGo]
    rw [ih, seedPermStep_len]
    omega

/-- The permission-seeding loop does not touch the RolePermission table. -/
theorem seedPermsGo_rolePerms (l : List (String × String × String)) :
    ∀ db, (seedPermsGo db l).1.rolePermissions = db.rolePermissions := by
  induction l with
  | nil => intro db; rfl
  | cons e rest ih =>
    intro db
    simp only [seedPermsGo]
    rw [ih, seedPermStep_rolePerms]

/-- Permission existence depends only on the Permission table. -/
theorem hasPermName_congr (db db' : SeedDB) (n : String)
    (h : db'.permissions = db.permissions) :
    hasPermName db' n = hasPermName db n := by
  simp [hasPermName, h]

/-- Mapping-seeding steps do not touch the Permission table. -/
theorem seedPairStep_permissions (db : SeedDB) (pr : String × String) :
    (seedPairStep db pr).1.permissions = db.permissions := by
  by_cases h1 : hasPermName db pr.2 = true
  · by_cases h2 : hasRolePair db pr.1 pr.2 = true <;>
      simp [seedPairStep, h1, h2]
  · simp [seedPairStep, h1]

/-- Pair existence survives a mapping-seeding step. -/
theorem seedPairStep_mono (db : SeedDB) (pr : String × String)
    (r pn : String) (h : hasRolePair db r pn = true) :
    hasRolePair (seedPairStep db pr).1 r pn = true := by
  by_cases h1 : hasPermName db pr.2 = true
  · by_cases h2 : hasRolePair db pr.1 pr.2 = true
    · simpa [seedPairStep, h1, h2]
    · have h2' : hasRolePair db pr.1 pr.2 = false := by
        cases hx : hasRolePair db pr.1 pr.2
        · rfl
        · exact absurd hx h2
      simp only [seedPairStep, h1, if_true, h2', Bool.false_eq_true, if_false]
      simp only [hasRolePair, List.any_append] at h ⊢
      rw [h]
      rfl
  · simpa [seedPairStep, h1]

/-- A mapping-seeding step whose permission exists establishes its own
pair. -/
theorem seedPairStep_self (db : SeedDB) (pr : String × String)
    (h : hasPermName db pr.2 = true) :
    hasRolePair (seedPairStep db pr).1 pr.1 pr.2 = true := by
  by_cases h2 : hasRolePair db pr.1 pr.2 = true
  · simp [seedPairStep, h, h2]
  · have h2' : hasRolePair db pr.1 pr.2 = false := by
      cases hx : hasRolePair db pr.1 pr.2
      · rfl
      · exact absurd hx h2
    simp only [seedPairStep, h, if_true, h2', Bool.false_eq_true, if_false]
    simp [hasRolePair, List.any_append]

/-- A mapping-seeding step is a no-op reporting `created=false` when either
the permission is missing or the pair already exists. -/
theorem seedPairStep_noop (db : SeedDB) (pr : String × String)
    (h : hasPermName db pr.2 = true → hasRolePair db pr.1 pr.2 = true) :
    seedPairStep db pr = (db, false) := by
  by_cases h1 : hasPermName db pr.2 = true
  · simp [seedPairStep, h1, h h1]
  · simp [seedPairStep, h1]

/-- A mapping-seeding step adds one row exactly when it reports
`created=true`. -/
theorem seedPairStep_len (db : SeedDB) (pr : String × String) :
    (seedPairStep db pr).1.rolePermissions.length =
      db.rolePermissions.length +
        (if (seedPairStep db pr).2 then 1 else 0) := by
  by_cases h1 : hasPermName db pr.2 = true
  · by_cases h2 : hasRolePair db pr.1 pr.2 = true <;>
      simp [seedPairStep, h1, h2]
  · simp [seedPairStep, h1]

/-- The mapping-seeding loop does not touch the Permission table. -/
theorem seedPairsGo_permissions (l : List (String × String)) :
    ∀ db, (seedPairsGo db l).1.permissions = db.permissions := by
  induction l with
  | nil => intro db; rfl
  | cons e rest ih =>
    intro db
    simp only [seedPairsGo]
    rw [ih, seedPairStep_permissions]

/-- Pair existence survives the whole mapping-seeding loop. -/
theorem seedPairsGo_mono (l : List (String × String)) :
    ∀ db r pn, hasRolePair db r pn = true →
      hasRolePair (seedPairsGo db l).1 r pn = true := by
  induction l with
  | nil => intro db r pn h; simpa [seedPairsGo] using h
  | cons e rest ih =>
    intro db r pn h
    simp only [seedPairsGo]
    exact ih _ r pn (seedPairStep_mono db e r pn h)

/-- After the mapping-seeding loop, every listed pair whose permission
existed at loop entry has its RolePermission row. -/
theorem seedPairsGo_complete (l : List (String × String)) :
    ∀ db pr, pr ∈ l → hasPermName db pr.2 = true →
      hasRolePair (seedPairsGo db l).1 pr.1 pr.2 = true := by
  induction l with
  | nil => intro db pr h; cases h
  | cons e rest ih =>
    intro db pr h hp
    simp only [seedPairsGo]
    rcases List.mem_cons.mp h with h | h
    · rw [h]
      rw [h] at hp
      exact seedPairsGo_mono rest _ _ _ (seedPairStep_self db e hp)
    · apply ih _ pr h
      rw [hasPermName_congr db _ pr.2 (seedPairStep_permissions db e)]
      exact hp

/-- The mapping-seeding loop is a no-op reporting zero created rows when
every listed pair with an existing permission already has its row. -/
theorem seedPairsGo_noop (l : List (String × String)) :
    ∀ db, (∀ pr ∈ l, hasPermName db pr.2 = true →
        hasRolePair db pr.1 pr.2 = true) →
      seedPairsGo db l = (db, 0) := by
  induction l with
  | nil => intro db _; rfl
  | cons e rest ih =>
    intro db h
    have he := seedPairStep_noop db e (h e (List.mem_cons_self e rest))
    simp only [seedPairsGo, he]
    rw [ih db (fun pr hpr => h pr (List.mem_cons_of_mem e hpr))]
    rfl

/-- The mapping count grows by exactly the reported created count. -/
theorem seedPairsGo_len (l : List (String × String)) :
    ∀ db, (seedPairsGo db l).1.rolePermissions.length =
      db.rolePermissions.length + (seedPairsGo db l).2 := by
  induction l with
  | nil => intro db; simp [seedPairsGo]
  | cons e rest ih =>
    intro db
    simp only [seedPairsGo]
    rw [ih, seedPairStep_len]
    omega

/-- C9: the seed command is idempotent. A second run leaves the state
unchanged and reports zero newly created permissions and zero newly created
mappings (so the row counts after two runs equal the counts after one run),
and each run's reported counts are exactly the numbers of rows it added. -/
theorem seed_command_idempotent (db : SeedDB) :
    ((seed_permissions_handle (seed_permissions_handle db).1).1 =
      (seed_permissions_handle db).1) ∧
    ((seed_permissions_handle (seed_permissions_handle db).1).2.1 = 0) ∧
    ((seed_permissions_handle (seed_permissions_handle db).1).2.2 = 0) ∧
    ((seed_permissions_handle db).1.permissions.length =
      db.permissions.length + (seed_permissions_handle db).2.1) ∧
    ((seed_permissions_handle db).1.rolePermissions.length =
      db.rolePermissions.length + (seed_permissions_handle db).2.2) := by
  have e1 : ∀ d : SeedDB, seed_permissions_handle d =
      ((seedPairsGo (seedPermsGo d permissions_data).1
          (pairsOf role_permissions_map)).1,
        (seedPermsGo d permissions_data).2,
        (seedPairsGo (seedPermsGo d permissions_data).1
          (pairsOf role_permissions_map)).2) := fun _ => rfl
  simp only [e1]
  have hperm1 : (seedPairsGo (seedPermsGo db permissions_data).1
        (pairsOf role_permissions_map)).1.permissions =
      (seedPermsGo db permissions_data).1.permissions :=
    seedPairsGo_permissions _ _
  have hdata : ∀ d ∈ permissions_data,
      hasPermName (seedPairsGo (seedPermsGo db permissions_data).1
        (pairsOf role_permissions_map)).1 d.1 = true := by
    intro d hd
    rw [hasPermName_congr (seedPermsGo db permissions_data).1 _ d.1 hperm1]
    exact seedPermsGo_complete permissions_data db d hd
  have hpairs : ∀ pr ∈ pairsOf role_permissions_map,
      hasPermName (seedPairsGo (seedPermsGo db permissions_data).1
        (pairsOf role_permissions_map)).1 pr.2 = true →
      hasRolePair (seedPairsGo (seedPermsGo db permissions_data).1
        (pairsOf role_permissions_map)).1 pr.1 pr.2 = true := by
    intro pr hpr hp
    rw [hasPermName_congr (seedPermsGo db permissions_data).1 _ pr.2
      hperm1] at hp
    exact seedPairsGo_complete (pairsOf role_permissions_map)
      (seedPermsGo db permissions_data).1 pr hpr hp
  have hrun2perm := seedPermsGo_noop permissions_data _ hdata
  have hrun2pair := seedPairsGo_noop (pairsOf role_permissions_map) _ hpairs
  refine ⟨?_, ?_, ?_, ?_, ?_⟩
  · rw [hrun2perm, hrun2pair]
  · rw [hrun2perm]
  · rw [hrun2perm, hrun2pair]
  · rw [hperm1]
    exact seedPermsGo_len permissions_data db
  · rw [seedPairsGo_len, seedPermsGo_rolePerms]
